import Mathlib

/-!
Verification of the CSV reconciliation, seeding merge, field serialization
and fetch-guard logic of the tps25 weather application.

The reconciliation is embedded at the level the program itself works at:
rows are the dictionaries read back from `weather_export.csv`, so every
payload field is carried opaquely and the `predicted` field is an optional
string (`none` models a row whose dictionary lacks the key, as happens for
legacy files without the `predicted` column).  Freshly built rows carry
`predicted` as the serialized boolean string `True` / `False`, which is the
form in which they re-enter the algorithm after a CSV round trip.
-/

/-- One row of `weather_export.csv`, as handled by `weather_export.py`.
`temp` is optional because the seeding path serializes a missing
temperature as an empty field.  `predicted` is `none` when the row
dictionary has no `predicted` key at all (legacy files). -/
structure Row where
  weather_date : String
  export_date : String
  city : String
  state : String
  temp : Option ℚ
  humidity : ℚ
  rain : ℚ
  summary : String
  predicted : Option String
deriving DecidableEq

/-- The location+date key string built at weather_export.py line 95 and 111:
`f"{city}|{state}|{weather_date}"`. -/
def rowKey (r : Row) : String :=
  r.city ++ "|" ++ r.state ++ "|" ++ r.weather_date

/-- Two rows agree on the (city, state, weather_date) natural key triple. -/
def sameKey (a b : Row) : Prop :=
  a.city = b.city ∧ a.state = b.state ∧ a.weather_date = b.weather_date

instance (a b : Row) : Decidable (sameKey a b) := by
  unfold sameKey; infer_instance

/-- ASCII lowercasing of a string, modelling Python str.lower on the
values that occur in the `predicted` column. -/
def strLower (s : String) : String := String.mk (s.data.map Char.toLower)

/-- Normalization of the `predicted` field of an existing row,
weather_export.py lines 104-108: `existing_row.get('predicted', '').lower()`
followed by defaulting a falsy (empty) string to `'false'`. -/
def normPred (p : Option String) : String :=
  let s := strLower (p.getD "")
  if s = "" then "false" else s

/-- Lines 126-127: `if 'predicted' not in existing_row:
existing_row['predicted'] = False`.  The Python boolean `False` is written
to CSV as the string `False`. -/
def ensurePredicted (e : Row) : Row :=
  match e.predicted with
  | none => { e with predicted := some "False" }
  | some _ => e

/-- Forgets the `predicted` field (used to compare reconciliation results up
to the representation of that one field). -/
def clearPred (r : Row) : Row :=
  { r with predicted := none }

/-- Line 122-123: `csv_data = [row for row in csv_data if
f"{row['city']}|{row['state']}|{row['weather_date']}" != key]`. -/
def removeKey (k : String) : List Row → List Row
  | [] => []
  | r :: rest =>
    if rowKey r = k then removeKey k rest else r :: removeKey k rest

/-- The filtering loop of weather_export.py lines 99-130.  `K` is the set
`locations_dates_to_overwrite`; the first component accumulates
`filtered_existing_data`, the second threads the progressively filtered
`csv_data`.  The nested conditionals mirror lines 116-128 exactly:
the outer test keeps a row when its key is not being updated or it is
actual data; the inner test suppresses the matching incoming rows (without
appending the existing row); the final `else` of the outer test drops the
existing predicted row. -/
def reconcileLoop (K : List String) : List Row → List Row → List Row × List Row
  | [], csvData => ([], csvData)
  | e :: rest, csvData =>
    if rowKey e ∉ K ∨ normPred e.predicted = "false" then
      if rowKey e ∈ K ∧ normPred e.predicted = "false" then
        reconcileLoop K rest (removeKey (rowKey e) csvData)
      else
        let p := reconcileLoop K rest csvData
        (ensurePredicted e :: p.1, p.2)
    else
      reconcileLoop K rest csvData

/-- The reconciliation contract of spec section 4.1, as implemented by
weather_export.py lines 50-133: build the key set of the incoming batch
(lines 94-96), run the filtering loop, and concatenate
`filtered_existing_data + csv_data` (line 133). -/
def reconcile (existing incoming : List Row) : List Row :=
  let K := incoming.map rowKey
  let p := reconcileLoop K existing incoming
  p.1 ++ p.2

/-- Closed form of the first component of the loop: the existing rows whose
key is not being updated, each given a `predicted` field. -/
def keptExisting (K : List String) : List Row → List Row
  | [] => []
  | e :: rest =>
    if rowKey e ∈ K then keptExisting K rest
    else ensurePredicted e :: keptExisting K rest

/-- The condition under which an existing row `e` suppresses incoming rows
sharing its key: its key is being updated and it is actual data. -/
def suppresses (K : List String) (e : Row) : Prop :=
  rowKey e ∈ K ∧ normPred e.predicted = "false"

instance (K : List String) (e : Row) : Decidable (suppresses K e) := by
  unfold suppresses; infer_instance

/-- Closed form of the second component of the loop: the incoming rows
whose key is matched by no actual existing row being updated. -/
def survivingIncoming (K : List String) (existing : List Row) : List Row → List Row
  | [] => []
  | r :: rest =>
    if ∃ e ∈ existing, suppresses K e ∧ rowKey e = rowKey r then
      survivingIncoming K existing rest
    else r :: survivingIncoming K existing rest

/-- The `rain` entry of one element of `weather_data['daily']`: absent,
a bare number, or a dictionary carrying an optional `1h` volume. -/
inductive RainField
  | absent
  | scalar (v : ℚ)
  | oneHourDict (v : Option ℚ)
deriving DecidableEq

/-- One element of `weather_data['daily']` as consumed by
weather_export.py lines 53-78.  `tempDay` is `none` when `temp` or
`temp.day` is missing (both default to 0 via dict.get).  `weather0` is
`none` when the `weather` list is missing or empty, otherwise it carries
the optional `description` of the first element. -/
structure DayData where
  dt : Option Int
  tempDay : Option ℚ
  humidity : Option ℚ
  rain : RainField
  weather0 : Option (Option String)
deriving DecidableEq

/-- The weather payload: `none` at the call site models a falsy
`weather_data`; `daily := none` models a dictionary without the `daily`
key. -/
structure WeatherData where
  daily : Option (List DayData)
deriving DecidableEq

/-- A coordinates dictionary as consumed by the export and validation
functions; optional fields model key presence. -/
structure Coordinates where
  name : Option String
  lat : Option ℚ
  lon : Option ℚ
  country : Option String
  state : Option String
deriving DecidableEq

/-- Ambient date facilities of the export function.  Dates are abstract
day numbers: `today` is `datetime.date.today()`, `exportDate` is
`datetime.datetime.now().strftime("%Y-%m-%d")` (the string form of
`today`), `tsToDate` is `datetime.datetime.fromtimestamp(ts).date()`,
`dateToStr` is `strftime("%Y-%m-%d")`, and `titleFn` is `str.title`.
The model uses that `strptime(strftime(d)) = d`, so the date object parsed
back from `weather_date` at line 59 is the day number the string was
formatted from (`today` when the string is `exportDate`). -/
structure ExportCtx where
  today : Int
  exportDate : String
  tsToDate : Int → Int
  dateToStr : Int → String
  titleFn : String → String

/-- Dispatch of the `rain` entry, weather_export.py lines 70-72. -/
def rainValue : RainField → ℚ
  | .absent => 0
  | .scalar v => v
  | .oneHourDict v => v.getD 0

/-- Rounding to one decimal place, modelling Python round(x, 1) at the
level of exact rationals (ties are immaterial to the claims). -/
def roundTo1 (x : ℚ) : ℚ := (round (x * 10) : ℤ) / 10

/-- Construction of one new CSV row from one daily entry,
weather_export.py lines 53-93.  The `predicted` field carries the
serialized boolean string, which is the form under which the row
re-enters reconciliation after a CSV round trip. -/
def mkRow (ctx : ExportCtx) (city_name state : String) (day_data : DayData) : Row :=
  let weather_timestamp := day_data.dt.getD 0
  let weather_date :=
    if weather_timestamp ≠ 0 then ctx.dateToStr (ctx.tsToDate weather_timestamp)
    else ctx.exportDate
  let weather_date_obj :=
    if weather_timestamp ≠ 0 then ctx.tsToDate weather_timestamp else ctx.today
  let is_predicted := weather_date_obj > ctx.today
  let temp := day_data.tempDay.getD 0
  let summary :=
    match day_data.weather0 with
    | some desc => ctx.titleFn (desc.getD "")
    | none => ""
  { weather_date := weather_date, export_date := ctx.exportDate,
    city := city_name, state := state,
    temp := some (roundTo1 temp), humidity := day_data.humidity.getD 0,
    rain := rainValue day_data.rain, summary := summary,
    predicted := some (if is_predicted then "True" else "False") }

/-- Observable outcome of one call to the export function: whether the
CSV file was opened for reading, what was written (`none` means no write
happened), which dialog was shown, and the file contents afterwards. -/
structure ExportResult where
  fileRead : Bool
  written : Option (List Row)
  errorMsg : Option String
  infoShown : Bool
  fileAfter : Option (List Row)
deriving DecidableEq

/-- The export operation, weather_export.py lines 7-158, over an abstract
file state (`none` means the file does not exist).  A falsy
`weather_data` or one without a `daily` key takes the guard at lines
16-18: an error dialog and an immediate return, before the file is ever
touched.  Otherwise the existing rows are read (lines 38-47), the new
rows and their key set are built (lines 50-96), the filtering loop runs
(lines 98-130) and the concatenation is written back (lines 133-145). -/
def export_daily_weather_to_csv (ctx : ExportCtx) (weather_data : Option WeatherData)
    (coordinates : Coordinates) (file : Option (List Row)) : ExportResult :=
  match weather_data with
  | none =>
      { fileRead := false, written := none,
        errorMsg := some "No daily weather data available to export.",
        infoShown := false, fileAfter := file }
  | some w =>
    match w.daily with
    | none =>
        { fileRead := false, written := none,
          errorMsg := some "No daily weather data available to export.",
          infoShown := false, fileAfter := file }
    | some daily_data =>
      let city_name := coordinates.name.getD "Unknown"
      let state := coordinates.state.getD ""
      let existing_data := file.getD []
      let csv_data := daily_data.map (mkRow ctx city_name state)
      let K := csv_data.map rowKey
      let p := reconcileLoop K existing_data csv_data
      let all_data := p.1 ++ p.2
      { fileRead := file.isSome, written := some all_data,
        errorMsg := none, infoShown := true, fileAfter := some all_data }

/-- Validation of the export inputs, weather_export.py lines 163-186. -/
def validate_export_data (weather_data : Option WeatherData)
    (coordinates : Option Coordinates) : Bool :=
  match weather_data with
  | none => false
  | some w =>
    match w.daily with
    | none => false
    | some daily =>
      if daily.isEmpty then false
      else
        match coordinates with
        | none => false
        | some c => c.name.isSome

/-- One historical day as consumed by seed_weather_data.py lines 104-119:
the scalar `temp`, the `humidity`, and the optional first weather
description. -/
structure SeedDay where
  temp : Option ℚ
  humidity : Option ℚ
  weather0 : Option (Option String)
deriving DecidableEq

/-- Construction of one seeded CSV row, seed_weather_data.py lines
104-132.  `round(temp, 1) if temp else ""` writes an empty temp field
whenever the fetched temperature is missing or zero; `predicted` is the
serialized form of the literal `False` at line 131. -/
def mkSeedRow (titleFn : String → String) (dateStr exportDate city state : String)
    (day : SeedDay) : Row :=
  let temp := day.temp.getD 0
  let summary :=
    match day.weather0 with
    | some desc => titleFn (desc.getD "")
    | none => ""
  { weather_date := dateStr, export_date := exportDate,
    city := city, state := state,
    temp := if temp ≠ 0 then some (roundTo1 temp) else none,
    humidity := day.humidity.getD 0, rain := 0, summary := summary,
    predicted := some "False" }

/-- The duplicate-avoidance loop of seed_weather_data.py lines 164-180:
an existing row is kept (with a defaulted `predicted` field) exactly when
its key is not among the keys being added, with no regard to its
`predicted` value. -/
def seedFilterLoop (K : List String) : List Row → List Row
  | [] => []
  | e :: rest =>
    if rowKey e ∉ K then ensurePredicted e :: seedFilterLoop K rest
    else seedFilterLoop K rest

/-- The merge performed by seed_weather_data.py lines 158-182: build the
key set of the seeded batch, drop every existing row whose key it
contains, and append the seeded rows. -/
def seed_weather_data_merge (existing csv_data : List Row) : List Row :=
  seedFilterLoop (csv_data.map rowKey) existing ++ csv_data

/-- Outcome of one HTTP interaction, abstracting requests.get plus JSON
parsing: a parsed payload, a request failure, or a JSON parse failure. -/
inductive ApiResult (α : Type)
  | success (data : α)
  | requestError (msg : String)
  | parseError (msg : String)

/-- The query parameters of the One Call endpoint, fetch_weather.py lines
31-43. -/
structure OneCallQuery where
  lat : ℚ
  lon : ℚ
  appid : String
  exclude : String
  units : String
deriving DecidableEq

/-- The query parameters of the geocoding endpoint, fetch_coordinates.py
lines 38-44. -/
structure GeoQuery where
  q : String
  limit : Nat
  appid : String
deriving DecidableEq

/-- One element of the geocoding response array; optional fields model
key presence in the JSON object. -/
structure GeoInfo where
  name : Option String
  lat : Option ℚ
  lon : Option ℚ
  country : Option String
  state : Option String
deriving DecidableEq

/-- Observable outcome of a fetch operation: the returned value, the
network requests issued, and the messages printed. -/
structure FetchOutcome (α : Type) (β : Type) where
  result : Option α
  requests : List β
  logs : List String

/-- fetch_weather.py lines 10-59: `get_weather_data`.  The API key comes
from the process environment (`none` models its absence); the network is
an oracle from query parameters to an HTTP outcome.  A missing key is
reported and the function returns `None` before any request is issued.
The exclude parameter defaults to `minutely,hourly,alerts` and is
overridden when a non-empty exclude argument is given (lines 37-43). -/
def get_weather_data {α : Type} (apiKey : Option String) (lat lon : ℚ)
    (exclude : String) (net : OneCallQuery → ApiResult α) : FetchOutcome α OneCallQuery :=
  match apiKey with
  | none =>
      { result := none, requests := [],
        logs := ["Error: OPENWEATHERMAP_KEY1 not found in environment variables"] }
  | some key =>
    let params : OneCallQuery :=
      { lat := lat, lon := lon, appid := key,
        exclude := if exclude ≠ "" then exclude else "minutely,hourly,alerts",
        units := "imperial" }
    match net params with
    | .success d =>
        { result := some d, requests := [params], logs := [] }
    | .requestError e =>
        { result := none, requests := [params],
          logs := ["Error making API request: " ++ e] }
    | .parseError e =>
        { result := none, requests := [params],
          logs := ["Error parsing JSON response: " ++ e] }

/-- fetch_coordinates.py lines 9-74: `get_city_coordinates`.  A missing
API key is reported and the function returns `None` before the query is
even built; otherwise the comma-joined query is issued and the first
element of the response array is normalized (lines 58-67). -/
def get_city_coordinates (apiKey : Option String) (city_name state_code country_code : String)
    (limit : Nat) (net : GeoQuery → ApiResult (List GeoInfo)) : FetchOutcome Coordinates GeoQuery :=
  match apiKey with
  | none =>
      { result := none, requests := [],
        logs := ["Error: OPENWEATHERMAP_KEY1 not found in environment variables"] }
  | some key =>
    let query_parts := [city_name]
      ++ (if state_code ≠ "" then [state_code] else [])
      ++ (if country_code ≠ "" then [country_code] else [])
    let query := String.intercalate "," query_parts
    let params : GeoQuery := { q := query, limit := limit, appid := key }
    match net params with
    | .success data =>
      match data with
      | [] =>
          { result := none, requests := [params],
            logs := ["No coordinates found for city: " ++ city_name] }
      | city_info :: _ =>
          { result := some
              { name := city_info.name, lat := city_info.lat, lon := city_info.lon,
                country := city_info.country,
                state := some (city_info.state.getD "") },
            requests := [params], logs := [] }
    | .requestError e =>
        { result := none, requests := [params],
          logs := ["Error making API request: " ++ e] }
    | .parseError e =>
        { result := none, requests := [params],
          logs := ["Error parsing JSON response: " ++ e] }

/-- A persisted actual observation for New York on 2024-01-01, used by the
concrete-instance theorems. -/
def actualRow : Row :=
  { weather_date := "2024-01-01", export_date := "2023-12-30", city := "New York",
    state := "NY", temp := some 40, humidity := 50, rain := 0,
    summary := "Clear Sky", predicted := some "false" }

/-- An incoming forecast row with the same key as actualRow. -/
def incomingRow : Row :=
  { weather_date := "2024-01-01", export_date := "2024-01-01", city := "New York",
    state := "NY", temp := some 38, humidity := 60, rain := 0,
    summary := "Rain", predicted := some "True" }

/-- An incoming actual row (serialized predicted False) with the same key. -/
def actualIncomingRow : Row := { incomingRow with predicted := some "False" }

/-- A legacy row whose dictionary has no predicted key. -/
def legacyRow : Row := { actualRow with predicted := none }

/-- A persisted forecast row with the same key as incomingRow. -/
def predictedRow : Row := { actualRow with predicted := some "True" }

/-- A second existing row with a different date key. -/
def otherDayRow : Row := { actualRow with weather_date := "2024-01-02" }

/-- A freshly seeded actual row with the same key as actualRow. -/
def seededRow : Row :=
  { weather_date := "2024-01-01", export_date := "2024-01-08", city := "New York",
    state := "NY", temp := some 41, humidity := 55, rain := 0,
    summary := "Mist", predicted := some "False" }

/-- A concrete export context for concrete-instance theorems. -/
def ctx0 : ExportCtx :=
  { today := 19730, exportDate := "2024-01-08", tsToDate := fun ts => ts / 86400,
    dateToStr := fun d => toString d, titleFn := fun s => s }

/-- A concrete coordinates dictionary. -/
def coords0 : Coordinates :=
  { name := some "New York", lat := some 40, lon := some (-74),
    country := some "US", state := some "NY" }

/-- A daily forecast entry carrying no temperature information. -/
def dayNoTemp : DayData :=
  { dt := some 1704326400, tempDay := none, humidity := some 50, rain := .absent,
    weather0 := none }

/-- A historical day carrying no temperature information. -/
def seedDayNoTemp : SeedDay :=
  { temp := none, humidity := some 40, weather0 := none }

/-- A historical day with temperature 50. -/
def seedDayFifty : SeedDay :=
  { temp := some 50, humidity := some 40, weather0 := some (some "mist") }

/-! Helper lemmas about the reconciliation loop. -/

theorem rowKey_ensurePredicted (e : Row) : rowKey (ensurePredicted e) = rowKey e := by
  unfold ensurePredicted
  cases e.predicted <;> rfl

theorem clearPred_ensurePredicted (e : Row) : clearPred (ensurePredicted e) = clearPred e := by
  unfold ensurePredicted clearPred
  cases e.predicted <;> rfl

theorem sameKey_rowKey {a b : Row} (h : sameKey a b) : rowKey a = rowKey b := by
  obtain ⟨h1, h2, h3⟩ := h
  unfold rowKey
  rw [h1, h2, h3]

theorem sameKey_ensurePredicted {a b : Row}
    (h : sameKey (ensurePredicted a) (ensurePredicted b)) : sameKey a b := by
  unfold ensurePredicted at h
  cases ha : a.predicted <;> cases hb : b.predicted <;>
    simp [ha, hb, sameKey] at h ⊢ <;> exact h

theorem survivingIncoming_nil (K : List String) (csv : List Row) :
    survivingIncoming K [] csv = csv := by
  induction csv with
  | nil => rfl
  | cons r rest ih => simp [survivingIncoming, ih]

theorem survivingIncoming_cons_suppress {K : List String} {e : Row} (ex : List Row)
    (h : suppresses K e) (csv : List Row) :
    survivingIncoming K (e :: ex) csv
      = survivingIncoming K ex (removeKey (rowKey e) csv) := by
  induction csv with
  | nil => rfl
  | cons r rest ih =>
    by_cases hk : rowKey r = rowKey e
    · have hcond : ∃ x ∈ e :: ex, suppresses K x ∧ rowKey x = rowKey r :=
        ⟨e, List.mem_cons_self e ex, h, hk.symm⟩
      rw [survivingIncoming, if_pos hcond, removeKey, if_pos hk, ih]
    · have hiff : (∃ x ∈ e :: ex, suppresses K x ∧ rowKey x = rowKey r)
          ↔ (∃ x ∈ ex, suppresses K x ∧ rowKey x = rowKey r) := by
        constructor
        · rintro ⟨x, hx, hs, hkey⟩
          rcases List.mem_cons.mp hx with rfl | hx
          · exact absurd hkey.symm hk
          · exact ⟨x, hx, hs, hkey⟩
        · rintro ⟨x, hx, hs, hkey⟩
          exact ⟨x, List.mem_cons_of_mem e hx, hs, hkey⟩
      rw [survivingIncoming, if_congr hiff rfl rfl, removeKey, if_neg hk,
        survivingIncoming, ih]

theorem survivingIncoming_cons_skip {K : List String} {e : Row} (ex : List Row)
    (h : ¬ suppresses K e) (csv : List Row) :
    survivingIncoming K (e :: ex) csv = survivingIncoming K ex csv := by
  induction csv with
  | nil => rfl
  | cons r rest ih =>
    have hiff : (∃ x ∈ e :: ex, suppresses K x ∧ rowKey x = rowKey r)
        ↔ (∃ x ∈ ex, suppresses K x ∧ rowKey x = rowKey r) := by
      constructor
      · rintro ⟨x, hx, hs, hkey⟩
        rcases List.mem_cons.mp hx with rfl | hx
        · exact absurd hs h
        · exact ⟨x, hx, hs, hkey⟩
      · rintro ⟨x, hx, hs, hkey⟩
        exact ⟨x, List.mem_cons_of_mem e hx, hs, hkey⟩
    rw [survivingIncoming, if_congr hiff rfl rfl, survivingIncoming, ih]

theorem reconcileLoop_eq (K : List String) (existing : List Row) : ∀ csv : List Row,
    reconcileLoop K existing csv
      = (keptExisting K existing, survivingIncoming K existing csv) := by
  induction existing with
  | nil =>
    intro csv
    rw [reconcileLoop, keptExisting, survivingIncoming_nil]
  | cons e rest ih =>
    intro csv
    by_cases hK : rowKey e ∈ K
    · by_cases hp : normPred e.predicted = "false"
      · rw [reconcileLoop, if_pos (Or.inr hp), if_pos ⟨hK, hp⟩, ih,
          keptExisting, if_pos hK, survivingIncoming_cons_suppress rest ⟨hK, hp⟩ csv]
      · have houter : ¬ (rowKey e ∉ K ∨ normPred e.predicted = "false") := by
          rintro (hc | hc)
          · exact hc hK
          · exact hp hc
        rw [reconcileLoop, if_neg houter, ih, keptExisting, if_pos hK,
          survivingIncoming_cons_skip rest (fun hs => hp hs.2) csv]
    · have hinner : ¬ (rowKey e ∈ K ∧ normPred e.predicted = "false") :=
        fun hs => hK hs.1
      rw [reconcileLoop, if_pos (Or.inl hK), if_neg hinner, ih, keptExisting,
        if_neg hK, survivingIncoming_cons_skip rest (fun hs => hK hs.1) csv]

theorem reconcile_eq (existing incoming : List Row) :
    reconcile existing incoming
      = keptExisting (incoming.map rowKey) existing
        ++ survivingIncoming (incoming.map rowKey) existing incoming := by
  show (reconcileLoop (incoming.map rowKey) existing incoming).1
      ++ (reconcileLoop (incoming.map rowKey) existing incoming).2 = _
  rw [reconcileLoop_eq]

theorem survivingIncoming_nil_csv (K : List String) (ex : List Row) :
    survivingIncoming K ex [] = [] := rfl

theorem mem_keptExisting {K : List String} {l : List Row} {x : Row} :
    x ∈ keptExisting K l ↔ ∃ e ∈ l, rowKey e ∉ K ∧ x = ensurePredicted e := by
  induction l with
  | nil => simp [keptExisting]
  | cons e rest ih =>
    by_cases hK : rowKey e ∈ K
    · rw [keptExisting, if_pos hK, ih]
      constructor
      · rintro ⟨y, hy, hk, hx⟩
        exact ⟨y, List.mem_cons_of_mem e hy, hk, hx⟩
      · rintro ⟨y, hy, hk, hx⟩
        rcases List.mem_cons.mp hy with rfl | hy
        · exact absurd hK hk
        · exact ⟨y, hy, hk, hx⟩
    · rw [keptExisting, if_neg hK]
      constructor
      · intro hx
        rcases List.mem_cons.mp hx with rfl | hx
        · exact ⟨e, List.mem_cons_self e rest, hK, rfl⟩
        · obtain ⟨y, hy, hk, hx⟩ := ih.mp hx
          exact ⟨y, List.mem_cons_of_mem e hy, hk, hx⟩
      · rintro ⟨y, hy, hk, hx⟩
        rcases List.mem_cons.mp hy with rfl | hy
        · exact hx ▸ List.mem_cons_self _ _
        · exact List.mem_cons_of_mem _ (ih.mpr ⟨y, hy, hk, hx⟩)

theorem keptExisting_key {K : List String} {l : List Row} {x : Row}
    (h : x ∈ keptExisting K l) : rowKey x ∉ K := by
  obtain ⟨e, he, hk, rfl⟩ := mem_keptExisting.mp h
  rw [rowKey_ensurePredicted]
  exact hk

theorem keptExisting_pairwise {K : List String} {l : List Row}
    (h : List.Pairwise (fun a b => ¬ sameKey a b) l) :
    List.Pairwise (fun a b => ¬ sameKey a b) (keptExisting K l) := by
  induction h with
  | nil => exact List.Pairwise.nil
  | @cons e rest hhead htail ih =>
    by_cases hK : rowKey e ∈ K
    · rw [keptExisting, if_pos hK]
      exact ih
    · rw [keptExisting, if_neg hK]
      refine List.Pairwise.cons ?_ ih
      intro y hy hsame
      obtain ⟨z, hz, hk, rfl⟩ := mem_keptExisting.mp hy
      exact hhead z hz (sameKey_ensurePredicted hsame)

theorem survivingIncoming_sublist (K : List String) (ex csv : List Row) :
    (survivingIncoming K ex csv).Sublist csv := by
  induction csv with
  | nil => exact List.Sublist.refl _
  | cons r rest ih =>
    rw [survivingIncoming]
    split
    · exact ih.cons r
    · exact ih.cons₂ r

theorem mem_survivingIncoming {K : List String} {ex csv : List Row} {x : Row} :
    x ∈ survivingIncoming K ex csv
      ↔ x ∈ csv ∧ ¬ ∃ e ∈ ex, suppresses K e ∧ rowKey e = rowKey x := by
  induction csv with
  | nil => simp [survivingIncoming_nil_csv]
  | cons r rest ih =>
    rw [survivingIncoming]
    by_cases hc : ∃ e ∈ ex, suppresses K e ∧ rowKey e = rowKey r
    · rw [if_pos hc, ih]
      constructor
      · rintro ⟨hx, hn⟩
        exact ⟨List.mem_cons_of_mem r hx, hn⟩
      · rintro ⟨hx, hn⟩
        rcases List.mem_cons.mp hx with rfl | hx
        · exact absurd hc hn
        · exact ⟨hx, hn⟩
    · rw [if_neg hc]
      constructor
      · intro hx
        rcases List.mem_cons.mp hx with rfl | hx
        · exact ⟨List.mem_cons_self x rest, hc⟩
        · obtain ⟨h1, h2⟩ := ih.mp hx
          exact ⟨List.mem_cons_of_mem r h1, h2⟩
      · rintro ⟨hx, hn⟩
        rcases List.mem_cons.mp hx with rfl | hx
        · exact List.mem_cons_self x _
        · exact List.mem_cons_of_mem r (ih.mpr ⟨hx, hn⟩)

theorem keptExisting_append (K : List String) (l1 l2 : List Row) :
    keptExisting K (l1 ++ l2) = keptExisting K l1 ++ keptExisting K l2 := by
  induction l1 with
  | nil => rfl
  | cons e rest ih =>
    by_cases hK : rowKey e ∈ K
    · rw [List.cons_append, keptExisting, if_pos hK, keptExisting, if_pos hK, ih]
    · rw [List.cons_append, keptExisting, if_neg hK, keptExisting, if_neg hK, ih,
        List.cons_append]

theorem keptExisting_middle_congr {K : List String} (pre post : List Row) {a b : Row}
    (hkey : rowKey a = rowKey b) (hclear : clearPred a = clearPred b) :
    (keptExisting K (pre ++ a :: post)).map clearPred
      = (keptExisting K (pre ++ b :: post)).map clearPred := by
  rw [keptExisting_append, keptExisting_append, List.map_append, List.map_append]
  congr 1
  by_cases hK : rowKey a ∈ K
  · rw [keptExisting, if_pos hK, keptExisting, if_pos (hkey ▸ hK)]
  · rw [keptExisting, if_neg hK, keptExisting, if_neg (hkey ▸ hK), List.map_cons,
      List.map_cons, clearPred_ensurePredicted, clearPred_ensurePredicted, hclear]

theorem survivingIncoming_middle_congr {K : List String} (pre post : List Row) {a b : Row}
    (hkey : rowKey a = rowKey b) (hsup : suppresses K a ↔ suppresses K b)
    (csv : List Row) :
    survivingIncoming K (pre ++ a :: post) csv
      = survivingIncoming K (pre ++ b :: post) csv := by
  induction csv with
  | nil => rfl
  | cons r rest ih =>
    have hPab : (suppresses K a ∧ rowKey a = rowKey r)
        ↔ (suppresses K b ∧ rowKey b = rowKey r) := by
      rw [hkey]
      exact and_congr hsup Iff.rfl
    have hiff : (∃ e ∈ pre ++ a :: post, suppresses K e ∧ rowKey e = rowKey r)
        ↔ (∃ e ∈ pre ++ b :: post, suppresses K e ∧ rowKey e = rowKey r) := by
      constructor
      · rintro ⟨e, he, hP⟩
        rcases List.mem_append.mp he with he | he
        · exact ⟨e, List.mem_append_left _ he, hP⟩
        · rcases List.mem_cons.mp he with rfl | he
          · exact ⟨b, List.mem_append_right _ (List.mem_cons_self _ _), hPab.mp hP⟩
          · exact ⟨e, List.mem_append_right _ (List.mem_cons_of_mem _ he), hP⟩
      · rintro ⟨e, he, hP⟩
        rcases List.mem_append.mp he with he | he
        · exact ⟨e, List.mem_append_left _ he, hP⟩
        · rcases List.mem_cons.mp he with rfl | he
          · exact ⟨a, List.mem_append_right _ (List.mem_cons_self _ _), hPab.mpr hP⟩
          · exact ⟨e, List.mem_append_right _ (List.mem_cons_of_mem _ he), hP⟩
    rw [survivingIncoming, if_congr hiff rfl rfl, survivingIncoming, ih]

theorem keptExisting_nilK (l : List Row) :
    keptExisting [] l = l.map ensurePredicted := by
  induction l with
  | nil => rfl
  | cons e rest ih =>
    rw [keptExisting, if_neg (List.not_mem_nil _), ih, List.map_cons]

theorem ensurePredicted_eq_self {e : Row} (h : e.predicted ≠ none) :
    ensurePredicted e = e := by
  unfold ensurePredicted
  cases hp : e.predicted
  · exact absurd hp h
  · rfl

theorem map_ensurePredicted_id {l : List Row} (h : ∀ e ∈ l, e.predicted ≠ none) :
    l.map ensurePredicted = l := by
  induction l with
  | nil => rfl
  | cons e rest ih =>
    rw [List.map_cons, ensurePredicted_eq_self (h e (List.mem_cons_self e rest)),
      ih (fun x hx => h x (List.mem_cons_of_mem e hx))]

theorem roundTo1_den (x : ℚ) : (roundTo1 x * 10).den = 1 := by
  unfold roundTo1
  rw [div_mul_cancel₀ _ (by norm_num : (10 : ℚ) ≠ 0)]
  exact Rat.den_intCast _

theorem roundTo1_close (x : ℚ) : |roundTo1 x - x| ≤ 1 / 20 := by
  unfold roundTo1
  have h : |x * 10 - (round (x * 10) : ℤ)| ≤ 1 / 2 := abs_sub_round (x * 10)
  have h2 : ((round (x * 10) : ℤ) : ℚ) / 10 - x
      = -((x * 10 - (round (x * 10) : ℤ)) / 10) := by ring
  rw [h2, abs_neg, abs_div, abs_of_pos (by norm_num : (0 : ℚ) < 10)]
  calc |x * 10 - ((round (x * 10) : ℤ) : ℚ)| / 10
      ≤ (1 / 2) / 10 := by gcongr
    _ = 1 / 20 := by norm_num

/-! Claim theorems. -/

/-- Claim C1 (code-bug evidence): reconciling an existing actual record
against an incoming batch containing the same key does drop the incoming
record, but it also drops the existing actual record itself, so the result
is empty instead of keeping the actual record unchanged as the claim (and
the comments at weather_export.py lines 113-118) state. -/
theorem reconcile_actual_wins_violation :
    reconcile [actualRow] [incomingRow] = [] := by decide

/-- Claim C2: when no two records of the same input sequence share a
(city, state, weather_date) key, the reconciled record set contains at
most one record per key. -/
theorem reconcile_key_uniqueness (existing incoming : List Row)
    (h1 : List.Pairwise (fun a b => ¬ sameKey a b) existing)
    (h2 : List.Pairwise (fun a b => ¬ sameKey a b) incoming) :
    List.Pairwise (fun a b => ¬ sameKey a b) (reconcile existing incoming) := by
  rw [reconcile_eq, List.pairwise_append]
  refine ⟨keptExisting_pairwise h1,
    List.Pairwise.sublist (survivingIncoming_sublist _ _ _) h2, ?_⟩
  intro a ha b hb hsame
  have hka := keptExisting_key ha
  have hb' := (survivingIncoming_sublist _ _ _).subset hb
  rw [sameKey_rowKey hsame] at hka
  exact hka (List.mem_map_of_mem rowKey hb')

theorem reconcile_key_uniqueness_witness :
    List.Pairwise (fun a b => ¬ sameKey a b) [actualRow, otherDayRow] ∧
    List.Pairwise (fun a b => ¬ sameKey a b) [incomingRow] ∧
    List.Pairwise (fun a b => ¬ sameKey a b)
      (reconcile [actualRow, otherDayRow] [incomingRow]) :=
  ⟨by decide, by decide, reconcile_key_uniqueness _ _ (by decide) (by decide)⟩

/-- Claim C3 (code-bug evidence): reconciliation is not idempotent.
Reconciling a batch containing one actual record against the result of a
first reconciliation of that same batch loses the record entirely, because
the first result holds it as existing actual data, which the loop then
drops while also suppressing the incoming copy. -/
theorem reconcile_not_idempotent :
    reconcile (reconcile [] [actualIncomingRow]) [actualIncomingRow]
      ≠ reconcile [] [actualIncomingRow] := by decide

/-- Claim C4: a key present among the existing records only as predicted
data and present in the incoming batch is replaced: the incoming record is
in the result, and every result record with that key comes from the
incoming batch. -/
theorem reconcile_predicted_replaced (existing incoming : List Row) (r : Row)
    (hr : r ∈ incoming)
    (_hpresent : ∃ e ∈ existing, rowKey e = rowKey r ∧ normPred e.predicted = "true")
    (honly : ∀ e ∈ existing, rowKey e = rowKey r → normPred e.predicted = "true") :
    r ∈ reconcile existing incoming ∧
      ∀ x ∈ reconcile existing incoming, rowKey x = rowKey r → x ∈ incoming := by
  have hnosup :
      ¬ ∃ e ∈ existing, suppresses (incoming.map rowKey) e ∧ rowKey e = rowKey r := by
    rintro ⟨e, he, hs, hk⟩
    exact absurd ((honly e he hk).symm.trans hs.2) (by decide)
  constructor
  · rw [reconcile_eq]
    exact List.mem_append_right _ (mem_survivingIncoming.mpr ⟨hr, hnosup⟩)
  · intro x hx hkx
    rw [reconcile_eq] at hx
    rcases List.mem_append.mp hx with hx | hx
    · exfalso
      have hka := keptExisting_key hx
      rw [hkx] at hka
      exact hka (List.mem_map_of_mem rowKey hr)
    · exact (survivingIncoming_sublist _ _ _).subset hx

theorem reconcile_predicted_replaced_witness :
    incomingRow ∈ [incomingRow] ∧
    (∃ e ∈ [predictedRow], rowKey e = rowKey incomingRow ∧
      normPred e.predicted = "true") ∧
    (incomingRow ∈ reconcile [predictedRow] [incomingRow] ∧
      ∀ x ∈ reconcile [predictedRow] [incomingRow],
        rowKey x = rowKey incomingRow → x ∈ [incomingRow]) :=
  ⟨by decide, by decide,
    reconcile_predicted_replaced _ _ _ (by decide) (by decide) (by decide)⟩

/-- Claim C5 counterexample: reconciling a legacy record (one whose
dictionary lacks the predicted field) against an empty batch does not
return it unchanged; the predicted field is materialized as False. -/
theorem reconcile_empty_batch_cex :
    reconcile [legacyRow] [] ≠ [legacyRow] := by decide

/-- Claim C5 (amended): reconciling against an empty batch returns the
existing records in order and otherwise intact, except that a record
lacking the predicted field gets it set to False; when every record
carries the field, the result is exactly the existing sequence. -/
theorem reconcile_empty_batch (existing : List Row) :
    reconcile existing [] = existing.map ensurePredicted ∧
      ((∀ e ∈ existing, e.predicted ≠ none) → reconcile existing [] = existing) := by
  have h1 : reconcile existing [] = existing.map ensurePredicted := by
    rw [reconcile_eq]
    show keptExisting [] existing ++ survivingIncoming [] existing [] = _
    rw [keptExisting_nilK, survivingIncoming_nil_csv, List.append_nil]
  exact ⟨h1, fun hall => by rw [h1, map_ensurePredicted_id hall]⟩

theorem reconcile_empty_batch_witness :
    (∀ e ∈ [actualRow], e.predicted ≠ none) ∧ reconcile [actualRow] [] = [actualRow] :=
  ⟨by decide, (reconcile_empty_batch [actualRow]).2 (by decide)⟩

/-- Claim C6: an existing record whose predicted field is absent or empty
is treated as predicted false by every keep, drop and suppress decision:
the reconciled record set is identical, up to the stored representation of
the predicted field, to the one obtained when the record carries the
explicit value false, i.e. it behaves exactly like an actual record. -/
theorem reconcile_legacy_default (pre post incoming : List Row) (e : Row)
    (h : e.predicted = none ∨ e.predicted = some "") :
    (reconcile (pre ++ e :: post) incoming).map clearPred
      = (reconcile (pre ++ { e with predicted := some "false" } :: post)
          incoming).map clearPred := by
  have hkey : rowKey e = rowKey { e with predicted := some "false" } := rfl
  have hclear : clearPred e = clearPred { e with predicted := some "false" } := rfl
  have hnp : normPred e.predicted = "false" := by
    rcases h with h | h <;> rw [h] <;> rfl
  have hsup : suppresses (incoming.map rowKey) e
      ↔ suppresses (incoming.map rowKey) ({ e with predicted := some "false" } : Row) := by
    unfold suppresses
    constructor
    · rintro ⟨ha, _⟩
      exact ⟨ha, rfl⟩
    · rintro ⟨ha, _⟩
      exact ⟨ha, hnp⟩
  rw [reconcile_eq, reconcile_eq, List.map_append, List.map_append,
    keptExisting_middle_congr pre post hkey hclear,
    survivingIncoming_middle_congr pre post hkey hsup]

theorem reconcile_legacy_default_witness :
    (legacyRow.predicted = none ∨ legacyRow.predicted = some "") ∧
    (reconcile [legacyRow] [incomingRow]).map clearPred
      = (reconcile [{ legacyRow with predicted := some "false" }]
          [incomingRow]).map clearPred :=
  ⟨Or.inl rfl, reconcile_legacy_default [] [] [incomingRow] legacyRow (Or.inl rfl)⟩

/-- Claim C7 counterexample: the export path serializes a record whose
temperature is absent from the fetched data with temp 0, not with an
empty field. -/
theorem export_absent_temp_writes_zero :
    dayNoTemp.tempDay = none ∧
      (mkRow ctx0 "New York" "NY" dayNoTemp).temp = some 0 ∧
      (mkRow ctx0 "New York" "NY" dayNoTemp).temp ≠ none := by
  have h : (mkRow ctx0 "New York" "NY" dayNoTemp).temp = some 0 := by
    show some (roundTo1 ((none : Option ℚ).getD 0)) = some 0
    norm_num [roundTo1]
  exact ⟨rfl, h, by rw [h]; exact Option.some_ne_none 0⟩

/-- Claim C7 (amended): every written temp is rounded to one decimal place
(an integer number of tenths, within one twentieth of the source value);
the seeding path serializes a missing or zero temperature as an empty
field; the export path serializes a missing temperature as 0, not as an
empty field. -/
theorem temp_serialization (ctx : ExportCtx) (city state dateStr exportDate : String)
    (tf : String → String) (d : DayData) (day : SeedDay) :
    (∃ q : ℚ, (mkRow ctx city state d).temp = some q ∧ (q * 10).den = 1 ∧
        |q - d.tempDay.getD 0| ≤ 1 / 20) ∧
    (day.temp = none ∨ day.temp = some 0 →
      (mkSeedRow tf dateStr exportDate city state day).temp = none) ∧
    (∀ t : ℚ, day.temp = some t → t ≠ 0 →
      (mkSeedRow tf dateStr exportDate city state day).temp = some (roundTo1 t)) ∧
    (d.tempDay = none → (mkRow ctx city state d).temp = some 0) := by
  refine ⟨⟨roundTo1 (d.tempDay.getD 0), rfl, roundTo1_den _, roundTo1_close _⟩,
    ?_, ?_, ?_⟩
  · intro h
    show (if day.temp.getD 0 ≠ 0 then some (roundTo1 (day.temp.getD 0)) else none)
        = none
    rcases h with h | h <;> rw [h] <;> simp
  · intro t ht hne
    show (if day.temp.getD 0 ≠ 0 then some (roundTo1 (day.temp.getD 0)) else none)
        = some (roundTo1 t)
    rw [ht]
    simp [hne]
  · intro h
    show some (roundTo1 (d.tempDay.getD 0)) = some 0
    rw [h]
    norm_num [roundTo1]

theorem temp_serialization_witness :
    (seedDayNoTemp.temp = none ∧
      (mkSeedRow id "2024-01-01" "2024-01-08" "New York" "NY" seedDayNoTemp).temp
        = none) ∧
    (seedDayFifty.temp = some 50 ∧ (50 : ℚ) ≠ 0 ∧
      (mkSeedRow id "2024-01-01" "2024-01-08" "New York" "NY" seedDayFifty).temp
        = some (roundTo1 50)) ∧
    (dayNoTemp.tempDay = none ∧
      (mkRow ctx0 "New York" "NY" dayNoTemp).temp = some 0) :=
  ⟨⟨rfl, (temp_serialization ctx0 "New York" "NY" "2024-01-01" "2024-01-08" id
      dayNoTemp seedDayNoTemp).2.1 (Or.inl rfl)⟩,
   ⟨rfl, by norm_num, (temp_serialization ctx0 "New York" "NY" "2024-01-01"
      "2024-01-08" id dayNoTemp seedDayFifty).2.2.1 50 rfl (by norm_num)⟩,
   ⟨rfl, (temp_serialization ctx0 "New York" "NY" "2024-01-01" "2024-01-08" id
      dayNoTemp seedDayNoTemp).2.2.2 rfl⟩⟩

/-- Claim C8: with the API credential absent from the process environment,
both fetch operations report the configuration error and return a failure
having issued no network request. -/
theorem missing_key_no_request (α : Type) (lat lon : ℚ) (excludeArg : String)
    (net1 : OneCallQuery → ApiResult α) (city state country : String)
    (limitArg : Nat) (net2 : GeoQuery → ApiResult (List GeoInfo)) :
    (get_weather_data none lat lon excludeArg net1).result = none ∧
    (get_weather_data none lat lon excludeArg net1).requests = [] ∧
    (get_weather_data none lat lon excludeArg net1).logs
      = ["Error: OPENWEATHERMAP_KEY1 not found in environment variables"] ∧
    (get_city_coordinates none city state country limitArg net2).result = none ∧
    (get_city_coordinates none city state country limitArg net2).requests = [] ∧
    (get_city_coordinates none city state country limitArg net2).logs
      = ["Error: OPENWEATHERMAP_KEY1 not found in environment variables"] :=
  ⟨rfl, rfl, rfl, rfl, rfl, rfl⟩

/-- Claim C9: a falsy weather payload or one without a daily entry makes
the export return right after the error dialog, without reading or writing
the CSV file and leaving the store exactly as it was; and
validate_export_data returns true exactly when the weather payload is
truthy with a non-empty daily list and the coordinates dictionary carries
a name. -/
theorem export_guard_and_validate (ctx : ExportCtx) (coordinates : Coordinates)
    (file : Option (List Row)) (weather_data : Option WeatherData)
    (coordsv : Option Coordinates) :
    ((weather_data = none ∨ ∃ w, weather_data = some w ∧ w.daily = none) →
      (export_daily_weather_to_csv ctx weather_data coordinates file).fileRead
          = false ∧
      (export_daily_weather_to_csv ctx weather_data coordinates file).written
          = none ∧
      (export_daily_weather_to_csv ctx weather_data coordinates file).errorMsg
          = some "No daily weather data available to export." ∧
      (export_daily_weather_to_csv ctx weather_data coordinates file).fileAfter
          = file) ∧
    (validate_export_data weather_data coordsv = true ↔
      (∃ w daily, weather_data = some w ∧ w.daily = some daily ∧ daily ≠ []) ∧
      ∃ c, coordsv = some c ∧ c.name.isSome) := by
  constructor
  · rintro (rfl | ⟨w, rfl, hw⟩)
    · exact ⟨rfl, rfl, rfl, rfl⟩
    · rcases w with ⟨_ | daily⟩
      · exact ⟨rfl, rfl, rfl, rfl⟩
      · exact Option.noConfusion hw
  · rcases weather_data with _ | ⟨dailyOpt⟩
    · simp [validate_export_data]
    · rcases dailyOpt with _ | daily
      · simp [validate_export_data]
      · rcases daily with _ | ⟨d0, drest⟩
        · simp [validate_export_data]
        · rcases coordsv with _ | c
          · simp [validate_export_data]
          · simp [validate_export_data]

theorem export_guard_and_validate_witness :
    ((none : Option WeatherData) = none ∨
      ∃ w, (none : Option WeatherData) = some w ∧ w.daily = none) ∧
    ((export_daily_weather_to_csv ctx0 none coords0 (some [actualRow])).fileRead
        = false ∧
      (export_daily_weather_to_csv ctx0 none coords0 (some [actualRow])).written
        = none ∧
      (export_daily_weather_to_csv ctx0 none coords0 (some [actualRow])).errorMsg
        = some "No daily weather data available to export." ∧
      (export_daily_weather_to_csv ctx0 none coords0 (some [actualRow])).fileAfter
        = some [actualRow]) :=
  ⟨Or.inl rfl,
    (export_guard_and_validate ctx0 coords0 (some [actualRow]) none none).1
      (Or.inl rfl)⟩

theorem mem_seedFilterLoop {K : List String} {l : List Row} {x : Row}
    (h : x ∈ seedFilterLoop K l) : rowKey x ∉ K := by
  induction l with
  | nil =>
    rw [seedFilterLoop] at h
    exact absurd h (List.not_mem_nil x)
  | cons e rest ih =>
    rw [seedFilterLoop] at h
    by_cases hK : rowKey e ∉ K
    · rw [if_pos hK] at h
      rcases List.mem_cons.mp h with rfl | h
      · rw [rowKey_ensurePredicted]
        exact hK
      · exact ih h
    · rw [if_neg hK] at h
      exact ih h

/-- Claim C10: the seeding merge drops every existing row whose key matches
a seeded row, with no regard to its predicted value, so an existing actual
record is replaced rather than protected: it is absent from the kept rows
and every result row with that key comes from the seeded batch. -/
theorem seed_merge_overrides_actual (existing csv_data : List Row) (r : Row)
    (_hr : r ∈ existing) (hk : rowKey r ∈ csv_data.map rowKey) :
    r ∉ seedFilterLoop (csv_data.map rowKey) existing ∧
      ∀ x ∈ seed_weather_data_merge existing csv_data,
        rowKey x = rowKey r → x ∈ csv_data := by
  constructor
  · intro hmem
    exact mem_seedFilterLoop hmem hk
  · intro x hx hkx
    unfold seed_weather_data_merge at hx
    rcases List.mem_append.mp hx with hx | hx
    · exact absurd (by rw [hkx]; exact hk) (mem_seedFilterLoop hx)
    · exact hx

theorem seed_merge_overrides_actual_witness :
    actualRow ∈ [actualRow] ∧ rowKey actualRow ∈ [seededRow].map rowKey ∧
      (actualRow ∉ seedFilterLoop ([seededRow].map rowKey) [actualRow] ∧
        ∀ x ∈ seed_weather_data_merge [actualRow] [seededRow],
          rowKey x = rowKey actualRow → x ∈ [seededRow]) :=
  ⟨by decide, by decide,
    seed_merge_overrides_actual _ _ _ (by decide) (by decide)⟩
